import Mathlib

/-!
Verification of the redo/retry policy code of `azure-iot-sdk-python`
(`azure/iot/device/common/exponential_backoff.py` and
`azure/iot/device/common/pipeline/config.py`), as a shallow embedding.

Modelling choices:
* Python numbers become `ℚ` (the configuration values `0.1`, `0.25`, `0.5`,
  `10` are decimal literals; `ℚ` keeps the algebra exact and decidable).
* `redo_count` is a `Nat` (the pipeline always passes a count ≥ 1).
* The single call `random.uniform(1 - jd, 1 + ju)` is replaced by an explicit
  parameter `u`: `get_next_redo_interval` here takes the drawn value as an
  argument, so properties can quantify over the draw.
* Python class objects (`type(op)`, entries of `redo_op_list` /
  `redo_error_list`) become values of an inductive `PyType`; `type(x) in lst`
  is decidable-equality membership, exactly as CPython compares class
  identity for `in` on a list of classes.  Subclassing is modelled by the
  `PyType.Subclass` constructor (a distinct class object whose base is the
  wrapped type), with `PyType.strictSubclass` as the strict-subclass relation.
* `op` / `error` arguments are `Option PyType` (the type of the passed object,
  `none` for Python `None`; the objects in play are truthy, so `if op:`
  is `Option.isSome`).
* Python calls that can raise are `Except PyError _`.  A function call with a
  missing required positional argument raises `TypeError`; this is modelled by
  `DefaultExponentialBackoff.callWith`, which takes each of the two required
  parameters of `DefaultExponentialBackoff.__init__` as an `Option`.
-/

/-- Python class objects that appear in the code: the exception classes named
in `config.py`, plus generic operation / error classes and subclasses for
instantiating universally quantified statements. -/
inductive PyType where
  | ConnectionFailedError : PyType
  | ConnectionDroppedError : PyType
  | PipelineTimeoutError : PyType
  | GenericOp : Nat → PyType
  | GenericError : Nat → PyType
  | Subclass : PyType → Nat → PyType
deriving DecidableEq, Repr

/-- Strict-subclass relation on the modelled class objects: `Subclass p n` is
a direct subclass of `p`, and the relation is transitive. -/
inductive PyType.strictSubclass : PyType → PyType → Prop
  | direct (p : PyType) (n : Nat) : PyType.strictSubclass (.Subclass p n) p
  | step (a b : PyType) (n : Nat) :
      PyType.strictSubclass a b → PyType.strictSubclass (.Subclass a n) b

/-- A Python exception raised by the modelled code; the only one that can
occur here is `TypeError` (missing required positional argument). -/
inductive PyError where
  | typeError : PyError
deriving DecidableEq, Repr

/-- State stored by `ExponentialBackoffWithJitter.__init__`
(`exponential_backoff.py`, lines 32-50): the constructor copies the two lists
and stores the six numeric/boolean parameters verbatim, with no validation. -/
structure ExponentialBackoffWithJitter where
  redo_op_list : List PyType
  redo_error_list : List PyType
  immediate_first_redo : Bool
  backoff_interval : ℚ
  minimum_interval_between_redos : ℚ
  maximum_interval_between_redos : ℚ
  jitter_up_factor : ℚ
  jitter_down_factor : ℚ
deriving DecidableEq, Repr

/-- `ExponentialBackoffWithJitter.__init__`.  The Python body contains no
`raise` and no checks: it always succeeds, storing its arguments as given
(`self.redo_error_list = list(redo_error_list)` etc.).  It is embedded in
`Except` because constructors may raise in Python; this one never does. -/
def ExponentialBackoffWithJitter.init
    (redo_op_list redo_error_list : List PyType)
    (immediate_first_redo : Bool)
    (backoff_interval minimum_interval_between_redos
     maximum_interval_between_redos jitter_up_factor jitter_down_factor : ℚ) :
    Except PyError ExponentialBackoffWithJitter :=
  Except.ok
    { redo_op_list := redo_op_list
      redo_error_list := redo_error_list
      immediate_first_redo := immediate_first_redo
      backoff_interval := backoff_interval
      minimum_interval_between_redos := minimum_interval_between_redos
      maximum_interval_between_redos := maximum_interval_between_redos
      jitter_up_factor := jitter_up_factor
      jitter_down_factor := jitter_down_factor }

/-- `ExponentialBackoffWithJitter.get_next_redo_interval` (lines 52-62),
with the value drawn by `random.uniform(1 - jd, 1 + ju)` passed in as `u`:

```
if self.immediate_first_redo and redo_count == 1:
    return 0
else:
    random_jitter = self.backoff_interval * random.uniform(...)
    return min(self.minimum_interval_between_redos
                 + (pow(2, redo_count - 1) - 1) * random_jitter,
               self.maximum_interval_between_redos)
```
-/
def ExponentialBackoffWithJitter.get_next_redo_interval
    (self : ExponentialBackoffWithJitter) (redo_count : Nat) (u : ℚ) : ℚ :=
  if self.immediate_first_redo = true ∧ redo_count = 1 then 0
  else
    let random_jitter := self.backoff_interval * u
    min (self.minimum_interval_between_redos
          + ((2 : ℚ) ^ (redo_count - 1) - 1) * random_jitter)
        self.maximum_interval_between_redos

/-- The guard `x and type(x) not in lst` used twice in `should_redo`:
`False` when `x` is `None`, otherwise true iff the type of `x` is absent
from the list. -/
def blocksRedo (x : Option PyType) (lst : List PyType) : Bool :=
  match x with
  | none => false
  | some t => decide (t ∉ lst)

/-- `ExponentialBackoffWithJitter.should_redo` (lines 64-70):

```
if op and type(op) not in self.redo_op_list:
    return False
if error and type(error) not in self.redo_error_list:
    return False
return True
```

`op` and `error` carry the Python type of the respective object (`none` for
`None`); `redo_count` is accepted and ignored, as in the source. -/
def ExponentialBackoffWithJitter.should_redo
    (self : ExponentialBackoffWithJitter) (op error : Option PyType)
    (redo_count : Nat) : Bool :=
  if blocksRedo op self.redo_op_list then false
  else if blocksRedo error self.redo_error_list then false
  else true

/-- `DefaultExponentialBackoff.__init__` (lines 82-92): delegates to the base
constructor with the fixed defaults
`immediate_first_redo=True, backoff_interval=0.1,
minimum_interval_between_redos=0.1, maximum_interval_between_redos=10,
jitter_up_factor=0.25, jitter_down_factor=0.5`. -/
def DefaultExponentialBackoff.init
    (redo_op_list redo_error_list : List PyType) :
    Except PyError ExponentialBackoffWithJitter :=
  ExponentialBackoffWithJitter.init redo_op_list redo_error_list
    true (1/10) (1/10) 10 (1/4) (1/2)

/-- A Python-level call of `DefaultExponentialBackoff(...)`: the signature
`__init__(self, redo_op_list, redo_error_list)` has two required positional
parameters, so a call that supplies no value for either raises `TypeError`
before the body runs. -/
def DefaultExponentialBackoff.callWith
    (redo_op_list redo_error_list : Option (List PyType)) :
    Except PyError ExponentialBackoffWithJitter :=
  match redo_op_list, redo_error_list with
  | some ops, some errs => DefaultExponentialBackoff.init ops errs
  | _, _ => Except.error PyError.typeError

/-- `reconnect_errors` from `config.py`. -/
def reconnect_errors : List PyType :=
  [PyType.ConnectionFailedError, PyType.ConnectionDroppedError]

/-- `retry_errors` from `config.py`. -/
def retry_errors : List PyType := [PyType.PipelineTimeoutError]

/-- The default value of the `retry_policy` parameter of
`BasePipelineConfig.__init__` (`config.py`, line 31):
`DefaultExponentialBackoff(retry_errors)` — a single positional argument,
so `retry_errors` binds `redo_op_list` and `redo_error_list` is missing. -/
def BasePipelineConfig.default_retry_policy :
    Except PyError ExponentialBackoffWithJitter :=
  DefaultExponentialBackoff.callWith (some retry_errors) none

/-- The default value of the `reconnect_policy` parameter of
`BasePipelineConfig.__init__` (`config.py`, line 32):
`DefaultExponentialBackoff(reconnect_errors)`, again one positional
argument for two required parameters. -/
def BasePipelineConfig.default_reconnect_policy :
    Except PyError ExponentialBackoffWithJitter :=
  DefaultExponentialBackoff.callWith (some reconnect_errors) none

/-- State of a constructed `BasePipelineConfig`. -/
structure BasePipelineConfig where
  websockets : Bool
  retry_policy : ExponentialBackoffWithJitter
  reconnect_policy : ExponentialBackoffWithJitter
deriving DecidableEq, Repr

/-- `BasePipelineConfig()` with no arguments: Python first evaluates the
default expressions of `retry_policy` and `reconnect_policy` (at `def` time),
then runs the body which stores the three fields.  Any `TypeError` raised by
a default propagates. -/
def BasePipelineConfig.initNoArgs : Except PyError BasePipelineConfig := do
  let r ← BasePipelineConfig.default_retry_policy
  let rc ← BasePipelineConfig.default_reconnect_policy
  Except.ok { websockets := false, retry_policy := r, reconnect_policy := rc }

/-! ## Sample configurations used to instantiate the theorems -/

/-- A non-immediate configuration: jitter factors of the default preset,
unit backoff interval, floor 1, ceiling 10. -/
def samplePolicy : ExponentialBackoffWithJitter :=
  { redo_op_list := []
    redo_error_list := [PyType.PipelineTimeoutError]
    immediate_first_redo := false
    backoff_interval := 1
    minimum_interval_between_redos := 1
    maximum_interval_between_redos := 10
    jitter_up_factor := 1/4
    jitter_down_factor := 1/2 }

/-- The same configuration with `immediate_first_redo` set. -/
def samplePolicyImmediate : ExponentialBackoffWithJitter :=
  { samplePolicy with immediate_first_redo := true }

/-! ## Helper lemmas -/

/-- In the non-special branch, the returned interval lies between the floor
and the ceiling, provided the floor is below the ceiling, the backoff
interval is positive and the draw is at least `1 - jitter_down_factor > 0`. -/
theorem redo_interval_else_bounds
    (p : ExponentialBackoffWithJitter) (c : Nat) (u : ℚ)
    (hmm : p.minimum_interval_between_redos ≤ p.maximum_interval_between_redos)
    (hb : 0 < p.backoff_interval)
    (hjd1 : p.jitter_down_factor < 1)
    (hu1 : 1 - p.jitter_down_factor ≤ u)
    (h : ¬(p.immediate_first_redo = true ∧ c = 1)) :
    p.minimum_interval_between_redos ≤ p.get_next_redo_interval c u ∧
      p.get_next_redo_interval c u ≤ p.maximum_interval_between_redos := by
  unfold ExponentialBackoffWithJitter.get_next_redo_interval
  rw [if_neg h]
  have hu0 : 0 < u := lt_of_lt_of_le (by linarith) hu1
  have h2 : (1 : ℚ) ≤ 2 ^ (c - 1) := one_le_pow₀ (by norm_num)
  have ht : (0 : ℚ) ≤ 2 ^ (c - 1) - 1 := by linarith
  have hjit : (0 : ℚ) ≤ (2 ^ (c - 1) - 1) * (p.backoff_interval * u) :=
    mul_nonneg ht (le_of_lt (mul_pos hb hu0))
  constructor
  · exact le_min (by linarith) hmm
  · exact min_le_right _ _

/-! ## Claims -/

/-- C1: for every configuration, draw `u` and `redo_count ≥ 1` outside the
immediate-first special case, `get_next_redo_interval` returns exactly
`min(minimum + (2^(redo_count-1) - 1) * backoff_interval * u, maximum)`;
in particular at `redo_count = 1` (so `immediate_first_redo` is false) the
result is `min(minimum, maximum)`. -/
theorem claim_interval_formula
    (p : ExponentialBackoffWithJitter) (redo_count : Nat) (u : ℚ)
    (hc : 1 ≤ redo_count)
    (h : ¬(p.immediate_first_redo = true ∧ redo_count = 1)) :
    p.get_next_redo_interval redo_count u =
      min (p.minimum_interval_between_redos
            + ((2 : ℚ) ^ (redo_count - 1) - 1) * p.backoff_interval * u)
          p.maximum_interval_between_redos ∧
    (redo_count = 1 →
      p.get_next_redo_interval redo_count u =
        min p.minimum_interval_between_redos
          p.maximum_interval_between_redos) := by
  constructor
  · unfold ExponentialBackoffWithJitter.get_next_redo_interval
    rw [if_neg h]
    rw [mul_assoc]
  · intro h1
    subst h1
    unfold ExponentialBackoffWithJitter.get_next_redo_interval
    rw [if_neg h]
    norm_num

/-- Witness for C1: the formula evaluated on `samplePolicy` at
`redo_count = 2`, `u = 1`. -/
theorem claim_interval_formula_witness :
    (1 ≤ 2 ∧ ¬(samplePolicy.immediate_first_redo = true ∧ 2 = 1)) ∧
    samplePolicy.get_next_redo_interval 2 1 =
      min (samplePolicy.minimum_interval_between_redos
            + ((2 : ℚ) ^ (2 - 1) - 1) * samplePolicy.backoff_interval * 1)
          samplePolicy.maximum_interval_between_redos :=
  ⟨⟨by norm_num, by decide⟩,
    (claim_interval_formula samplePolicy 2 1 (by norm_num) (by decide)).1⟩

/-- C2: under a sane configuration (floor below ceiling, positive backoff
interval, jitter factors in range) and any draw in
`[1 - jitter_down_factor, 1 + jitter_up_factor)`, the interval lies in
`[minimum, maximum]` when `immediate_first_redo` is false, and in
`{0} ∪ [minimum, maximum]` when it is true; it never exceeds the maximum. -/
theorem claim_interval_bounds
    (p : ExponentialBackoffWithJitter) (c : Nat) (u : ℚ)
    (hmm : p.minimum_interval_between_redos ≤ p.maximum_interval_between_redos)
    (hb : 0 < p.backoff_interval)
    (hju : 0 ≤ p.jitter_up_factor)
    (hjd0 : 0 ≤ p.jitter_down_factor)
    (hjd1 : p.jitter_down_factor < 1)
    (hc : 1 ≤ c)
    (hu1 : 1 - p.jitter_down_factor ≤ u)
    (hu2 : u < 1 + p.jitter_up_factor) :
    (p.immediate_first_redo = false →
       p.minimum_interval_between_redos ≤ p.get_next_redo_interval c u ∧
       p.get_next_redo_interval c u ≤ p.maximum_interval_between_redos) ∧
    (p.immediate_first_redo = true →
       p.get_next_redo_interval c u = 0 ∨
       (p.minimum_interval_between_redos ≤ p.get_next_redo_interval c u ∧
        p.get_next_redo_interval c u ≤ p.maximum_interval_between_redos)) := by
  constructor
  · intro himm
    exact redo_interval_else_bounds p c u hmm hb hjd1 hu1
      (by simp [himm])
  · intro himm
    by_cases h1 : c = 1
    · left
      unfold ExponentialBackoffWithJitter.get_next_redo_interval
      rw [if_pos ⟨himm, h1⟩]
    · right
      exact redo_interval_else_bounds p c u hmm hb hjd1 hu1
        (by simp [h1])

/-- Witness for C2: `samplePolicy` at `c = 3`, `u = 1/2`. -/
theorem claim_interval_bounds_witness :
    (samplePolicy.minimum_interval_between_redos ≤
       samplePolicy.maximum_interval_between_redos ∧
     (0 : ℚ) < samplePolicy.backoff_interval ∧
     (0 : ℚ) ≤ samplePolicy.jitter_up_factor ∧
     (0 : ℚ) ≤ samplePolicy.jitter_down_factor ∧
     samplePolicy.jitter_down_factor < 1 ∧
     1 ≤ 3 ∧
     1 - samplePolicy.jitter_down_factor ≤ (1/2 : ℚ) ∧
     (1/2 : ℚ) < 1 + samplePolicy.jitter_up_factor) ∧
    (samplePolicy.immediate_first_redo = false →
       samplePolicy.minimum_interval_between_redos ≤
         samplePolicy.get_next_redo_interval 3 (1/2) ∧
       samplePolicy.get_next_redo_interval 3 (1/2) ≤
         samplePolicy.maximum_interval_between_redos) :=
  ⟨⟨by norm_num [samplePolicy], by norm_num [samplePolicy],
    by norm_num [samplePolicy], by norm_num [samplePolicy],
    by norm_num [samplePolicy], by norm_num, by norm_num [samplePolicy],
    by norm_num [samplePolicy]⟩,
   (claim_interval_bounds samplePolicy 3 (1/2) (by norm_num [samplePolicy])
     (by norm_num [samplePolicy]) (by norm_num [samplePolicy])
     (by norm_num [samplePolicy]) (by norm_num [samplePolicy]) (by norm_num)
     (by norm_num [samplePolicy]) (by norm_num [samplePolicy])).1⟩

/-- C3 counterexample: the claim says the immediate-first special case is the
*only* case whose result is determined by the attempt count alone, but with
`immediate_first_redo = false` the attempt-1 result is also independent of
the draw: `samplePolicy` returns `1` at attempt 1 both for `u = 1/2` and for
`u = 1` (both inside the jitter range `[1/2, 5/4)`). -/
theorem claim_zero_case_counterexample :
    samplePolicy.immediate_first_redo = false ∧
    samplePolicy.get_next_redo_interval 1 (1/2) = 1 ∧
    samplePolicy.get_next_redo_interval 1 1 = 1 := by
  refine ⟨rfl, ?_, ?_⟩ <;>
    norm_num [samplePolicy, ExponentialBackoffWithJitter.get_next_redo_interval,
      min_def]

/-- C3 amended: with `immediate_first_redo = true`, attempt 1 returns exactly
`0` for every draw; but this is not the only draw-independent case — with
`immediate_first_redo = false`, attempt 1 returns
`min(minimum, maximum)` for every draw as well. -/
theorem claim_zero_case_amended
    (p : ExponentialBackoffWithJitter) (u : ℚ) :
    (p.immediate_first_redo = true → p.get_next_redo_interval 1 u = 0) ∧
    (p.immediate_first_redo = false →
       p.get_next_redo_interval 1 u =
         min p.minimum_interval_between_redos
           p.maximum_interval_between_redos) := by
  constructor
  · intro himm
    unfold ExponentialBackoffWithJitter.get_next_redo_interval
    rw [if_pos ⟨himm, rfl⟩]
  · intro himm
    unfold ExponentialBackoffWithJitter.get_next_redo_interval
    rw [if_neg (by simp [himm])]
    norm_num

/-- Witness for C3 amended: both branches evaluated on concrete policies. -/
theorem claim_zero_case_amended_witness :
    samplePolicyImmediate.get_next_redo_interval 1 (3/4) = 0 ∧
    samplePolicy.get_next_redo_interval 1 (3/4) =
      min samplePolicy.minimum_interval_between_redos
        samplePolicy.maximum_interval_between_redos :=
  ⟨(claim_zero_case_amended samplePolicyImmediate (3/4)).1 rfl,
   (claim_zero_case_amended samplePolicy (3/4)).2 rfl⟩

/-- C4 (code bug): `BasePipelineConfig()` with no arguments does not succeed.
The default expressions `DefaultExponentialBackoff(retry_errors)` and
`DefaultExponentialBackoff(reconnect_errors)` in `config.py` pass the error
list as the single positional argument `redo_op_list` and supply nothing for
the required parameter `redo_error_list`, so evaluating either default raises
`TypeError` and no config object is produced. -/
theorem claim_default_config_raises :
    BasePipelineConfig.default_retry_policy = Except.error PyError.typeError ∧
    BasePipelineConfig.default_reconnect_policy =
      Except.error PyError.typeError ∧
    BasePipelineConfig.initNoArgs = Except.error PyError.typeError := by
  refine ⟨rfl, rfl, rfl⟩

/-- C5 counterexample: `should_redo` does not ignore the operation-kind list.
On `samplePolicy` (empty `redo_op_list`, error list containing
`PipelineTimeoutError`) with the same listed error, the result flips from
`true` to `false` purely because an op is supplied whose type is not in
`redo_op_list` — so the result does depend on the op argument. -/
theorem claim_retry_ignores_ops_counterexample :
    samplePolicy.should_redo none (some PyType.PipelineTimeoutError) 1 =
      true ∧
    samplePolicy.should_redo (some (PyType.GenericOp 0))
      (some PyType.PipelineTimeoutError) 1 = false := by
  refine ⟨?_, ?_⟩ <;> decide

/-- C5 amended: `should_redo` (used unchanged by both the retry- and the
reconnect-flavored policy) filters on both lists: it returns `true` exactly
when every supplied op has its type in `redo_op_list` and every supplied
error has its type in `redo_error_list`. -/
theorem claim_should_redo_filters_both
    (p : ExponentialBackoffWithJitter) (op error : Option PyType) (c : Nat) :
    p.should_redo op error c = true ↔
      ((∀ t, op = some t → t ∈ p.redo_op_list) ∧
       (∀ e, error = some e → e ∈ p.redo_error_list)) := by
  unfold ExponentialBackoffWithJitter.should_redo blocksRedo
  rcases op with _ | t <;> rcases error with _ | e <;> simp

/-- Witness for C5 amended: evaluated on `samplePolicy` with no op and a
listed error. -/
theorem claim_should_redo_filters_both_witness :
    samplePolicy.should_redo none (some PyType.PipelineTimeoutError) 1 =
      true :=
  (claim_should_redo_filters_both samplePolicy none
      (some PyType.PipelineTimeoutError) 1).mpr
    ⟨fun t h => (by cases h), fun e h => (by cases h; decide)⟩

/-- C6: whenever a non-`None` error is supplied whose type is absent from
`redo_error_list`, `should_redo` returns `false`, for every op argument and
count; no exception is involved (the function is total). -/
theorem claim_unlisted_error_no_redo
    (p : ExponentialBackoffWithJitter) (op : Option PyType) (e : PyType)
    (c : Nat) (hc : 1 ≤ c) (he : e ∉ p.redo_error_list) :
    p.should_redo op (some e) c = false := by
  unfold ExponentialBackoffWithJitter.should_redo blocksRedo
  rcases op with _ | t <;> simp [he]

/-- Witness for C6: `samplePolicy` with an unlisted error type. -/
theorem claim_unlisted_error_no_redo_witness :
    samplePolicy.should_redo (some (PyType.GenericOp 0))
      (some (PyType.GenericError 0)) 1 = false :=
  claim_unlisted_error_no_redo samplePolicy (some (PyType.GenericOp 0))
    (PyType.GenericError 0) 1 (by norm_num) (by decide)

/-- C7: when both `op` and `error` are `None` (spontaneous disconnect),
`should_redo` returns `true` for every policy instance, every count ≥ 1 and
any contents of the two lists. -/
theorem claim_spontaneous_disconnect_redo
    (p : ExponentialBackoffWithJitter) (c : Nat) (hc : 1 ≤ c) :
    p.should_redo none none c = true := rfl

/-- Witness for C7: evaluated on `samplePolicy` at count 1. -/
theorem claim_spontaneous_disconnect_redo_witness :
    samplePolicy.should_redo none none 1 = true :=
  claim_spontaneous_disconnect_redo samplePolicy 1 (by norm_num)

/-- C9 counterexample: constructing with
`maximum_interval_between_redos = 0 < 5 = minimum_interval_between_redos`
and a negative `backoff_interval` does not fail: `__init__` performs no
validation and returns the instance with the nonsensical values stored
verbatim, rather than raising any configuration error. -/
theorem claim_validation_counterexample :
    ExponentialBackoffWithJitter.init [] [] false (-1) 5 0 0 0 =
      Except.ok
        { redo_op_list := []
          redo_error_list := []
          immediate_first_redo := false
          backoff_interval := -1
          minimum_interval_between_redos := 5
          maximum_interval_between_redos := 0
          jitter_up_factor := 0
          jitter_down_factor := 0 } := rfl

/-- C9 amended: construction never fails — for any parameter values,
including `max < min` or negative intervals, `__init__` succeeds and stores
every argument unchanged; no configuration-error check exists, so
misconfigurations surface only at runtime. -/
theorem claim_init_never_fails
    (ops errs : List PyType) (imm : Bool) (b mn mx ju jd : ℚ) :
    ExponentialBackoffWithJitter.init ops errs imm b mn mx ju jd =
      Except.ok
        { redo_op_list := ops
          redo_error_list := errs
          immediate_first_redo := imm
          backoff_interval := b
          minimum_interval_between_redos := mn
          maximum_interval_between_redos := mx
          jitter_up_factor := ju
          jitter_down_factor := jd } := rfl

/-- A policy whose lists hold base classes, for exercising subclass checks. -/
def subclassPolicy : ExponentialBackoffWithJitter :=
  { samplePolicy with
      redo_op_list := [PyType.GenericOp 0]
      redo_error_list := [PyType.ConnectionFailedError] }

/-- C10: `should_redo` uses exact-type membership, not `isinstance`: an error
whose type is a strict subclass of a listed error kind but is not itself
listed is rejected for every op argument, and an op whose type is a strict
subclass of a listed op kind but is not itself listed is rejected for every
error argument. -/
theorem claim_exact_type_membership
    (p : ExponentialBackoffWithJitter) (c : Nat) (hc : 1 ≤ c)
    (e te : PyType) (hesub : PyType.strictSubclass e te)
    (hte : te ∈ p.redo_error_list) (he : e ∉ p.redo_error_list)
    (o so : PyType) (hosub : PyType.strictSubclass o so)
    (hso : so ∈ p.redo_op_list) (ho : o ∉ p.redo_op_list) :
    (∀ op, p.should_redo op (some e) c = false) ∧
    (∀ err, p.should_redo (some o) err c = false) := by
  constructor
  · intro op
    unfold ExponentialBackoffWithJitter.should_redo blocksRedo
    rcases op with _ | x <;> simp [he]
  · intro err
    unfold ExponentialBackoffWithJitter.should_redo blocksRedo
    simp [ho]

/-- Witness for C10: on `subclassPolicy`, a direct subclass of the listed
`ConnectionFailedError` is rejected as error, and a direct subclass of the
listed `GenericOp 0` is rejected as op. -/
theorem claim_exact_type_membership_witness :
    subclassPolicy.should_redo none
      (some (PyType.Subclass PyType.ConnectionFailedError 0)) 1 = false ∧
    subclassPolicy.should_redo (some (PyType.Subclass (PyType.GenericOp 0) 0))
      none 1 = false := by
  have h := claim_exact_type_membership subclassPolicy 1 (by norm_num)
    (PyType.Subclass PyType.ConnectionFailedError 0)
    PyType.ConnectionFailedError (PyType.strictSubclass.direct _ _)
    (by decide) (by decide)
    (PyType.Subclass (PyType.GenericOp 0) 0) (PyType.GenericOp 0)
    (PyType.strictSubclass.direct _ _) (by decide) (by decide)
  exact ⟨h.1 none, h.2 none⟩

/-- The lower bound of the range of values `get_next_redo_interval` can
return at a given count: the interval is a monotone function of the draw, so
the bound is the value at the low end `u = 1 - jitter_down_factor` of the
range of `random.uniform(1 - jd, 1 + ju)`. -/
def intervalLowerBound (p : ExponentialBackoffWithJitter) (c : Nat) : ℚ :=
  p.get_next_redo_interval c (1 - p.jitter_down_factor)

/-- C8: for a fixed non-immediate configuration with floor below ceiling,
positive backoff interval and `1 - jitter_down_factor > 0`,
`intervalLowerBound` really is a lower bound over all draws in range, and it
never decreases from attempt `n` to attempt `n + 1`. -/
theorem claim_lower_bound_monotone
    (p : ExponentialBackoffWithJitter) (n : Nat)
    (himm : p.immediate_first_redo = false)
    (hmm : p.minimum_interval_between_redos ≤ p.maximum_interval_between_redos)
    (hb : 0 < p.backoff_interval)
    (hjd : 0 < 1 - p.jitter_down_factor)
    (hn : 1 ≤ n) :
    (∀ u, 1 - p.jitter_down_factor ≤ u →
       intervalLowerBound p n ≤ p.get_next_redo_interval n u) ∧
    intervalLowerBound p n ≤ intervalLowerBound p (n + 1) := by
  have hcond : ∀ m : Nat, ¬(p.immediate_first_redo = true ∧ m = 1) := by
    intro m h
    rw [himm] at h
    exact Bool.false_ne_true h.1
  have ht : ∀ m : Nat, (0 : ℚ) ≤ 2 ^ m - 1 := by
    intro m
    have h1 : (1 : ℚ) ≤ 2 ^ m := one_le_pow₀ (by norm_num)
    linarith
  constructor
  · intro u hu
    unfold intervalLowerBound
      ExponentialBackoffWithJitter.get_next_redo_interval
    rw [if_neg (hcond n), if_neg (hcond n)]
    refine min_le_min ?_ le_rfl
    refine add_le_add_left ?_ _
    exact mul_le_mul_of_nonneg_left
      (mul_le_mul_of_nonneg_left hu hb.le) (ht (n - 1))
  · unfold intervalLowerBound
      ExponentialBackoffWithJitter.get_next_redo_interval
    rw [if_neg (hcond n), if_neg (hcond (n + 1))]
    refine min_le_min ?_ le_rfl
    refine add_le_add_left ?_ _
    refine mul_le_mul_of_nonneg_right ?_ (le_of_lt (mul_pos hb hjd))
    have hpow : (2 : ℚ) ^ (n - 1) ≤ 2 ^ (n + 1 - 1) := by
      refine pow_le_pow_right₀ (by norm_num) ?_
      omega
    linarith

/-- Witness for C8: `samplePolicy` at attempts 2 and 3, with a draw check. -/
theorem claim_lower_bound_monotone_witness :
    (1 - samplePolicy.jitter_down_factor ≤ (1 : ℚ) →
       intervalLowerBound samplePolicy 2 ≤
         samplePolicy.get_next_redo_interval 2 1) ∧
    intervalLowerBound samplePolicy 2 ≤ intervalLowerBound samplePolicy 3 := by
  have h := claim_lower_bound_monotone samplePolicy 2 rfl
    (by norm_num [samplePolicy]) (by norm_num [samplePolicy])
    (by norm_num [samplePolicy]) (by norm_num)
  exact ⟨h.1 1, h.2⟩
